import Mathlib

/-
Verification of the amplify-js sign-in core, the Next.js adapter auth route
handler factory, and the DefaultAmplify configuration dispatch, as a shallow
embedding in Lean 4.  Stateful TypeScript (the module-level sign-in session
store, the Amplify singleton) is modelled by explicit state passing; thrown
exceptions are modelled with `Except`; network activity is modelled by
recording the calls made to the injected remote-flow function.
-/

namespace CognitoSignIn

/-- Client metadata forwarded verbatim to the remote service (a string map). -/
abbrev ClientMetadata := List (String × String)

/-- Challenge parameters: opaque string-keyed payload from the remote service. -/
abbrev ChallengeParameters := List (String × String)

/-- Modelled from the spec: the challenge enumeration of §3 (the `ChallengeName`
type of `clients/types/models` is not under src/).  `currentChallenge:
enum{PasswordVerifier, CustomChallenge, MfaCode, NewPasswordRequired, Done}`;
`Done` is the terminal marker, also used as the `nextStep` kind of a finished
sign-in. -/
inductive ChallengeName where
  | PasswordVerifier
  | CustomChallenge
  | MfaCode
  | NewPasswordRequired
  | Done
deriving DecidableEq, Repr

/-- Validation error codes used by `signInWithSRP` (the enum itself lives in
`errors/types/validation`, outside src/; the two members used here are named
in the source). -/
inductive AuthValidationErrorCode where
  | EmptySignInUsername
  | EmptySignInPassword
deriving DecidableEq, Repr

/-- Errors that `signInWithSRP` can raise: validation errors, named service
errors from the remote flow, and the fail-closed error for challenge names the
dispatcher does not recognize. -/
inductive SignInError where
  | validationError (code : AuthValidationErrorCode)
  | serviceError (errorName : String)
  | unrecognizedChallenge (challengeName : Option ChallengeName)
deriving DecidableEq, Repr

/-- The `name` property of an error object, as read by the catch block of
`signInWithSRP` (`error.name`). -/
def SignInError.name : SignInError → String
  | SignInError.validationError AuthValidationErrorCode.EmptySignInUsername =>
      "EmptySignInUsername"
  | SignInError.validationError AuthValidationErrorCode.EmptySignInPassword =>
      "EmptySignInPassword"
  | SignInError.serviceError errorName => errorName
  | SignInError.unrecognizedChallenge _ => "UnrecognizedChallengeError"

/-- Terminal token artifact; the core only signals its arrival, so its payload
is opaque here. -/
structure AuthTokens where
  accessToken : String
deriving DecidableEq, Repr

/-- Shape of a successful response of `handleUserSRPAuthFlow`: the fields
destructured by `signInWithSRP` (`ChallengeName`, `ChallengeParameters`,
`AuthenticationResult`, `Session`), each of which may be absent. -/
structure SRPFlowResponse where
  challengeName : Option ChallengeName
  challengeParameters : Option ChallengeParameters
  authenticationResult : Option AuthTokens
  session : Option String
deriving DecidableEq, Repr

/-- The in-progress sign-in session stored by `setActiveSignInState`: exactly
the object literal built in `signInWithSRP` (continuation token `Session`, the
caller username, and the returned challenge name; the `as ChallengeName` cast
in the source can hide `undefined`, hence the `Option`). -/
structure SignInSession where
  signInSession : Option String
  username : String
  challengeName : Option ChallengeName
deriving DecidableEq, Repr

/-- Modelled from the spec: the Session State Store of §3 (`signInStore` is not
under src/).  It holds at most one active session, overwritten on each new
sign-in start.  `setActiveSignInState` replaces whatever was stored. -/
def setActiveSignInState (state : SignInSession) (_store : Option SignInSession) :
    Option SignInSession :=
  some state

/-- Modelled from the spec: the Session State Store of §3 (`signInStore` is not
under src/).  `cleanActiveSignInState` clears the store unconditionally. -/
def cleanActiveSignInState (_store : Option SignInSession) : Option SignInSession :=
  none

/-- Modelled from the spec: `assertServiceError` (`errors/utils`, not under
src/) rethrows values that are not named `Error` objects as an unknown error
and lets named service errors through.  Every error in this embedding carries
a name, so here it passes the error through unchanged. -/
def assertServiceError (error : SignInError) : SignInError :=
  error

/-- Modelled from the spec: the parameter filter of §4.3 ("parameters filtered
to only the fields relevant to that challenge kind").  For a code challenge the
delivery details are relevant; for a new-password challenge the required
attributes; a custom challenge's parameters are opaque to the core and passed
through whole. -/
def relevantChallengeKeys : ChallengeName → Option (List String)
  | ChallengeName.MfaCode =>
      some ["CODE_DELIVERY_DELIVERY_MEDIUM", "CODE_DELIVERY_DESTINATION"]
  | ChallengeName.NewPasswordRequired => some ["requiredAttributes"]
  | _ => none

/-- Keeps only the parameter entries relevant to the given challenge kind. -/
def filterRelevantParameters (challenge : ChallengeName)
    (params : ChallengeParameters) : ChallengeParameters :=
  match relevantChallengeKeys challenge with
  | none => params
  | some keys => params.filter fun kv => keys.contains kv.fst

/-- The next step a caller must perform, as carried in an `AuthSignInResult`
(`signInStep` plus the additional info shown to the caller). -/
structure NextStep where
  signInStep : ChallengeName
  additionalInfo : Option ChallengeParameters
deriving DecidableEq, Repr

/-- Caller-facing result of a sign-in call. -/
structure AuthSignInResult where
  isSignedIn : Bool
  nextStep : NextStep
deriving DecidableEq, Repr

/-- Modelled from the spec: `getSignInResult` (`signInHelpers`, not under
src/).  §4.3: a named challenge maps to `{isSignedIn: false, nextStep: that
challenge, with parameters filtered to the fields relevant to that kind}`;
unknown challenge names fail closed with `UnrecognizedChallengeError`.  The
challenges a caller can answer are CustomChallenge, MfaCode and
NewPasswordRequired; PasswordVerifier is internal to the SRP flow and Done is
terminal, so neither is a recognizable next step, and an absent challenge name
is likewise unrecognized. -/
def getSignInResult (challengeName : Option ChallengeName)
    (challengeParameters : Option ChallengeParameters) :
    Except SignInError AuthSignInResult :=
  let params := challengeParameters.getD []
  match challengeName with
  | some ChallengeName.CustomChallenge =>
      Except.ok ⟨false, ⟨ChallengeName.CustomChallenge,
        some (filterRelevantParameters ChallengeName.CustomChallenge params)⟩⟩
  | some ChallengeName.MfaCode =>
      Except.ok ⟨false, ⟨ChallengeName.MfaCode,
        some (filterRelevantParameters ChallengeName.MfaCode params)⟩⟩
  | some ChallengeName.NewPasswordRequired =>
      Except.ok ⟨false, ⟨ChallengeName.NewPasswordRequired,
        some (filterRelevantParameters ChallengeName.NewPasswordRequired params)⟩⟩
  | _ => Except.error (SignInError.unrecognizedChallenge challengeName)

/-- Modelled from the spec: `getSignInResultFromError` (`signInHelpers`, not
under src/).  §4.4: a classifiable service error becomes a non-throwing
`SignInResult` whose next step is the remote condition itself (the spec's
example is "password reset required", rendered here with the spec's
NewPasswordRequired step kind); every other error name is unclassifiable. -/
def getSignInResultFromError (errorName : String) : Option AuthSignInResult :=
  if errorName = "PasswordResetRequiredException" then
    some ⟨false, ⟨ChallengeName.NewPasswordRequired, none⟩⟩
  else
    none

/-- Cognito-specific per-call service options (`CognitoSignInOptions`). -/
structure CognitoSignInOptions where
  clientMetadata : Option ClientMetadata
deriving DecidableEq, Repr

/-- The `options` bag of a `SignInRequest`. -/
structure SignInOptions where
  serviceOptions : Option CognitoSignInOptions
deriving DecidableEq, Repr

/-- The `SignInRequest` consumed by `signInWithSRP`. -/
structure SignInRequest where
  username : String
  password : String
  options : Option SignInOptions
deriving DecidableEq, Repr

/-- The part of `Amplify.config` read by `signInWithSRP`. -/
structure AmplifyConfig where
  clientMetadata : Option ClientMetadata
deriving DecidableEq, Repr

/-- One invocation of `handleUserSRPAuthFlow`, recorded so that theorems can
speak about whether and with which arguments the network flow was entered. -/
structure FlowCall where
  username : String
  password : String
  clientMetadata : Option ClientMetadata
deriving DecidableEq, Repr

/-- Observable outcome of a `signInWithSRP` call: the resolved or thrown
result, the session store contents afterwards, and the remote-flow calls
made. -/
structure SignInOutcome where
  result : Except SignInError AuthSignInResult
  store : Option SignInSession
  networkCalls : List FlowCall
deriving Repr

/-- The catch block of `signInWithSRP`: clear the active session, assert the
error is a service error, classify it, and either resolve with the classified
result or rethrow the original error. -/
def signInCatch (error : SignInError) (store : Option SignInSession) :
    Except SignInError AuthSignInResult × Option SignInSession :=
  let store₁ := cleanActiveSignInState store
  let error₁ := assertServiceError error
  match getSignInResultFromError (SignInError.name error₁) with
  | some result => (Except.ok result, store₁)
  | none => (Except.error error₁, store₁)

/-- Shallow embedding of `signInWithSRP` (src/unnamed/part_000).  The remote
flow `handleUserSRPAuthFlow` is injected as a function; the module-level
session store is passed and returned explicitly; the JS truthiness tests
(`!!username`, `!!password` on strings, `x || y` on the metadata objects,
`if (AuthenticationResult)`) are rendered as emptiness and `Option`
matches. -/
def signInWithSRP
    (handleUserSRPAuthFlow :
      String → String → Option ClientMetadata → Except SignInError SRPFlowResponse)
    (config : AmplifyConfig) (signInRequest : SignInRequest)
    (store : Option SignInSession) : SignInOutcome :=
  let username := signInRequest.username
  let password := signInRequest.password
  let clientMetaData :=
    match Option.bind (Option.bind signInRequest.options SignInOptions.serviceOptions)
        CognitoSignInOptions.clientMetadata with
    | some m => some m
    | none => config.clientMetadata
  if username = "" then
    ⟨Except.error (SignInError.validationError AuthValidationErrorCode.EmptySignInUsername),
      store, []⟩
  else if password = "" then
    ⟨Except.error (SignInError.validationError AuthValidationErrorCode.EmptySignInPassword),
      store, []⟩
  else
    let calls := [FlowCall.mk username password clientMetaData]
    match handleUserSRPAuthFlow username password clientMetaData with
    | Except.error error =>
        let caught := signInCatch error store
        ⟨caught.fst, caught.snd, calls⟩
    | Except.ok resp =>
        let store₁ :=
          setActiveSignInState ⟨resp.session, username, resp.challengeName⟩ store
        match resp.authenticationResult with
        | some _ =>
            ⟨Except.ok ⟨true, ⟨ChallengeName.Done, none⟩⟩,
              cleanActiveSignInState store₁, calls⟩
        | none =>
            match getSignInResult resp.challengeName resp.challengeParameters with
            | Except.ok result => ⟨Except.ok result, store₁, calls⟩
            | Except.error error =>
                let caught := signInCatch error store₁
                ⟨caught.fst, caught.snd, calls⟩

/-- Sample flow returning an MFA code challenge, for concrete evaluations. -/
def mfaResponse : SRPFlowResponse :=
  ⟨some ChallengeName.MfaCode,
    some [("CODE_DELIVERY_DELIVERY_MEDIUM", "SMS"),
          ("CODE_DELIVERY_DESTINATION", "+15550100"),
          ("USER_ID_FOR_SRP", "alice")],
    none, some "continuation-1"⟩

/-- Constant remote flow that answers every initiation with `mfaResponse`. -/
def mfaFlow : String → String → Option ClientMetadata →
    Except SignInError SRPFlowResponse :=
  fun _ _ _ => Except.ok mfaResponse

/-- Sample flow response carrying tokens and no challenge. -/
def tokensResponse : SRPFlowResponse :=
  ⟨none, none, some ⟨"access-token"⟩, none⟩

/-- Constant remote flow that immediately issues tokens. -/
def tokensFlow : String → String → Option ClientMetadata →
    Except SignInError SRPFlowResponse :=
  fun _ _ _ => Except.ok tokensResponse

/-- Sample flow response naming the terminal Done marker as a challenge, which
the dispatcher must reject. -/
def doneChallengeResponse : SRPFlowResponse :=
  ⟨some ChallengeName.Done, none, none, some "continuation-2"⟩

/-- Constant remote flow answering with the unrecognizable challenge above. -/
def doneChallengeFlow : String → String → Option ClientMetadata →
    Except SignInError SRPFlowResponse :=
  fun _ _ _ => Except.ok doneChallengeResponse

/-- Constant remote flow failing with the given service error name. -/
def errorFlow (errorName : String) : String → String → Option ClientMetadata →
    Except SignInError SRPFlowResponse :=
  fun _ _ _ => Except.error (SignInError.serviceError errorName)

/-- Sample global configuration with fallback client metadata. -/
def sampleConfig : AmplifyConfig :=
  ⟨some [("configured", "global")]⟩

/-- Sample valid request without per-call options. -/
def sampleRequest : SignInRequest :=
  ⟨"alice", "hunter2", none⟩

/-- Sample valid request carrying per-call client metadata. -/
def sampleRequestWithMetadata : SignInRequest :=
  ⟨"alice", "hunter2", some ⟨some ⟨some [("perCall", "local")]⟩⟩⟩

/-- Sample stored session, standing for a first sign-in awaiting a challenge
response. -/
def staleSession : SignInSession :=
  ⟨some "stale-continuation", "bob", some ChallengeName.CustomChallenge⟩

end CognitoSignIn

namespace AdapterNextjs

/-- Error type of `@aws-amplify/core/internals/adapter-core` carrying a message
and a recovery suggestion, as constructed by the factory. -/
structure AmplifyServerContextError where
  message : String
  recoverySuggestion : String
deriving DecidableEq, Repr

/-- The error thrown when the `AMPLIFY_APP_ORIGIN` environment variable is
falsy (absent or empty). -/
def missingOriginError : AmplifyServerContextError :=
  ⟨"Could not find the AMPLIFY_APP_ORIGIN environment variable.",
   "Add the AMPLIFY_APP_ORIGIN environment variable to the `.env` file of your Next.js project."⟩

/-- The error thrown when `AMPLIFY_APP_ORIGIN` is set but fails origin
validation. -/
def invalidOriginError : AmplifyServerContextError :=
  ⟨"AMPLIFY_APP_ORIGIN environment variable contains an invalid origin string.",
   "Ensure the AMPLIFY_APP_ORIGIN environment variable is a valid origin string."⟩

/-- Failures of `createAuthRouteHandlersFactory`: server-context errors from
the origin checks, or the subsequent config assertions
(`assertTokenProviderConfig` / `assertOAuthConfig`, which throw their own
error kind). -/
inductive AuthRouteHandlersError where
  | serverContextError (error : AmplifyServerContextError)
  | configAssertionError (check : String)
deriving DecidableEq, Repr

/-- The value returned by a successful factory call: the handler-creating
closure, represented by the origin it captured. -/
structure InternalCreateAuthRouteHandlers where
  origin : String
deriving DecidableEq, Repr

/-- Consumes the characters of `pre` from the front of `cs`, returning the
remainder, or `none` if `cs` does not start with `pre`. -/
def dropPrefixChars : List Char → List Char → Option (List Char)
  | [], cs => some cs
  | _ :: _, [] => none
  | p :: ps, c :: cs => if p = c then dropPrefixChars ps cs else none

/-- A host part is valid when it is nonempty and contains no path separator. -/
def isValidOriginHost (host : List Char) : Bool :=
  !host.isEmpty && host.all fun c => c ≠ '/'

/-- Modelled from the spec: `isValidOrigin` (adapter `auth/utils`, not under
src/) decides whether a string is a valid web origin: an `http://` or
`https://` scheme followed by a nonempty host with no path.  The empty string
is not a valid origin. -/
def isValidOrigin (origin : String) : Bool :=
  match dropPrefixChars "https://".data origin.data with
  | some host => isValidOriginHost host
  | none =>
    match dropPrefixChars "http://".data origin.data with
    | some host => isValidOriginHost host
    | none => false

/-- Shallow embedding of `createAuthRouteHandlersFactory`
(src/packages/adapter-nextjs/src/auth/createAuthRouteHandlersFactory.ts).
The environment variable is an explicit `Option String` argument (`!origin`
is falsy both for an unset variable and for the empty string); the resource
config assertions that follow the origin checks are abstracted to the two
booleans they test.  A thrown error is an `Except.error`; reaching `Except.ok`
is what creating the request handler closure requires. -/
def createAuthRouteHandlersFactory (hasTokenProviderConfig : Bool)
    (hasOAuthConfig : Bool) (envAmplifyAppOrigin : Option String) :
    Except AuthRouteHandlersError InternalCreateAuthRouteHandlers :=
  match envAmplifyAppOrigin with
  | none => Except.error (AuthRouteHandlersError.serverContextError missingOriginError)
  | some origin =>
    if origin = "" then
      Except.error (AuthRouteHandlersError.serverContextError missingOriginError)
    else if !isValidOrigin origin then
      Except.error (AuthRouteHandlersError.serverContextError invalidOriginError)
    else if !hasTokenProviderConfig then
      Except.error (AuthRouteHandlersError.configAssertionError "assertTokenProviderConfig")
    else if !hasOAuthConfig then
      Except.error (AuthRouteHandlersError.configAssertionError "assertOAuthConfig")
    else
      Except.ok ⟨origin⟩

end AdapterNextjs

namespace InitSingleton

/-- Token providers distinguishable by `DefaultAmplify.configure`: the default
Cognito user-pools token provider singleton, or any other provider a caller
configured. -/
inductive TokenProvider where
  | cognitoUserPoolsTokenProvider
  | otherTokenProvider (label : String)
deriving DecidableEq, Repr

/-- Credentials providers distinguishable by `DefaultAmplify.configure`: the
default `cognitoCredentialsProvider` singleton, the cookie-storage-backed
`CognitoAWSCredentialsAndIdentityIdProvider` built for SSR, or any other
provider a caller configured. -/
inductive CredentialsProvider where
  | cognitoCredentialsProvider
  | cognitoSSRCredentialsProvider
  | otherCredentialsProvider (label : String)
deriving DecidableEq, Repr

/-- The `Auth` entry of `LibraryOptions`. -/
structure AuthLibraryOptions where
  tokenProvider : TokenProvider
  credentialsProvider : CredentialsProvider
deriving DecidableEq, Repr

/-- The parts of `LibraryOptions` that `DefaultAmplify.configure` inspects or
forwards: the optional `Auth` providers and the optional `ssr` flag. -/
structure LibraryOptions where
  Auth : Option AuthLibraryOptions
  ssr : Option Bool
deriving DecidableEq, Repr

/-- The Auth section of a resolved resource config, opaque here: only its
presence is branched on. -/
structure AuthConfig where
  cognito : String
deriving DecidableEq, Repr

/-- The part of `ResourcesConfig` that `DefaultAmplify.configure` branches
on. -/
structure ResourcesConfig where
  Auth : Option AuthConfig
deriving DecidableEq, Repr

/-- Modelled from the spec: `parseAmplifyConfig` (`core/internals/utils`, not
under src/) normalizes legacy shapes; on an already-resolved `ResourcesConfig`
it is the identity. -/
def parseAmplifyConfig (resourceConfig : ResourcesConfig) : ResourcesConfig :=
  resourceConfig

/-- The single call `DefaultAmplify.configure` makes to `Amplify.configure`:
the resolved config, and the library options argument when one is passed
(`none` models calling `Amplify.configure(config)` with no second
argument). -/
structure ConfigureCall where
  resourcesConfig : ResourcesConfig
  libraryOptions : Option LibraryOptions
deriving DecidableEq, Repr

/-- The `resolvedCredentialsProvider` local of `DefaultAmplify.configure`:
cookie-backed for SSR (`libraryOptions?.ssr` truthy), the default singleton
otherwise. -/
def resolvedCredentialsProviderOf (libraryOptions : Option LibraryOptions) :
    CredentialsProvider :=
  if (Option.bind libraryOptions LibraryOptions.ssr).getD false then
    CredentialsProvider.cognitoSSRCredentialsProvider
  else
    CredentialsProvider.cognitoCredentialsProvider

/-- Shallow embedding of `DefaultAmplify.configure`
(src/packages/aws-amplify/src/initSingleton.ts).  The previously configured
`Amplify.libraryOptions` is an explicit argument; the result is the call
forwarded to `Amplify.configure`.  The JS object spreads are rendered
field-wise: in the install branch `{...libraryOptions, Auth: defaults}` keeps
the caller's `ssr` and sets `Auth`; in the preserve branch
`{Auth: authLibraryOptions, ...libraryOptions}` the spread cannot override
`Auth` because that branch requires `libraryOptions.Auth` to be absent. -/
def DefaultAmplifyConfigure (prevLibraryOptions : LibraryOptions)
    (resourceConfig : ResourcesConfig) (libraryOptions : Option LibraryOptions) :
    ConfigureCall :=
  let resolvedResourceConfig := parseAmplifyConfig resourceConfig
  let resolvedCredentialsProvider := resolvedCredentialsProviderOf libraryOptions
  match resolvedResourceConfig.Auth with
  | none => ⟨resolvedResourceConfig, libraryOptions⟩
  | some _ =>
    if (Option.bind libraryOptions LibraryOptions.Auth).isSome then
      ⟨resolvedResourceConfig, libraryOptions⟩
    else
      match prevLibraryOptions.Auth with
      | none =>
          ⟨resolvedResourceConfig,
            some ⟨some ⟨TokenProvider.cognitoUserPoolsTokenProvider,
                    resolvedCredentialsProvider⟩,
                  Option.bind libraryOptions LibraryOptions.ssr⟩⟩
      | some prevAuth =>
          match libraryOptions with
          | some options =>
              let authLibraryOptions :=
                if options.ssr.isSome then
                  { prevAuth with credentialsProvider := resolvedCredentialsProvider }
                else
                  prevAuth
              ⟨resolvedResourceConfig, some ⟨some authLibraryOptions, options.ssr⟩⟩
          | none => ⟨resolvedResourceConfig, none⟩

/-- Sample resource config containing an Auth section. -/
def sampleAuthResourcesConfig : ResourcesConfig :=
  ⟨some ⟨"userPool"⟩⟩

/-- Sample previously configured library options with caller-supplied Auth
providers. -/
def samplePrevAuthOptions : LibraryOptions :=
  ⟨some ⟨TokenProvider.otherTokenProvider "customToken",
        CredentialsProvider.otherCredentialsProvider "customCredentials"⟩,
    none⟩

end InitSingleton

namespace CognitoSignIn

/-- Every successful translation of a challenge is a not-signed-in result whose
step is the (present) challenge name itself, and that step is never the
terminal Done marker. -/
theorem getSignInResult_ok_shape (challengeName : Option ChallengeName)
    (challengeParameters : Option ChallengeParameters) (result : AuthSignInResult)
    (h : getSignInResult challengeName challengeParameters = Except.ok result) :
    result.isSignedIn = false ∧ challengeName = some result.nextStep.signInStep ∧
      result.nextStep.signInStep ≠ ChallengeName.Done := by
  cases challengeName with
  | none => simp [getSignInResult] at h
  | some c =>
    cases c <;> simp [getSignInResult] at h <;>
      simp [← h]

/-- When no successful translation exists, `getSignInResult` fails closed with
the unrecognized-challenge error for that very name. -/
theorem getSignInResult_unrecognized (challengeName : Option ChallengeName)
    (challengeParameters : Option ChallengeParameters)
    (h : ∀ result, getSignInResult challengeName challengeParameters ≠ Except.ok result) :
    getSignInResult challengeName challengeParameters =
      Except.error (SignInError.unrecognizedChallenge challengeName) := by
  cases challengeName with
  | none => simp [getSignInResult]
  | some c =>
    cases c with
    | PasswordVerifier => simp [getSignInResult]
    | Done => simp [getSignInResult]
    | CustomChallenge => exact absurd rfl (h _)
    | MfaCode => exact absurd rfl (h _)
    | NewPasswordRequired => exact absurd rfl (h _)

/-- C1: an empty username fails with the EmptySignInUsername validation error
and an empty password (with nonempty username) with EmptySignInPassword; in
both cases the outcome shows no network call and the session store exactly as
it was. -/
theorem signInWithSRP_empty_input_validation
    (flow : String → String → Option ClientMetadata → Except SignInError SRPFlowResponse)
    (config : AmplifyConfig) (req : SignInRequest) (store : Option SignInSession) :
    (req.username = "" →
      signInWithSRP flow config req store =
        ⟨Except.error (SignInError.validationError AuthValidationErrorCode.EmptySignInUsername),
          store, []⟩) ∧
    (req.username ≠ "" → req.password = "" →
      signInWithSRP flow config req store =
        ⟨Except.error (SignInError.validationError AuthValidationErrorCode.EmptySignInPassword),
          store, []⟩) := by
  constructor
  · intro hu
    simp [signInWithSRP, hu]
  · intro hu hp
    simp [signInWithSRP, hu, hp]

/-- C1 witness: concrete empty-username call. -/
theorem signInWithSRP_empty_input_validation_witness :
    signInWithSRP mfaFlow sampleConfig ⟨"", "hunter2", none⟩ (some staleSession) =
      ⟨Except.error (SignInError.validationError AuthValidationErrorCode.EmptySignInUsername),
        some staleSession, []⟩ :=
  (signInWithSRP_empty_input_validation mfaFlow sampleConfig ⟨"", "hunter2", none⟩
    (some staleSession)).1 rfl

/-- C2: when the remote flow returns an `AuthenticationResult`, the call
resolves with `{isSignedIn: true, nextStep: DONE}` and the session store ends
cleared. -/
theorem signInWithSRP_tokens_done
    (flow : String → String → Option ClientMetadata → Except SignInError SRPFlowResponse)
    (config : AmplifyConfig) (req : SignInRequest) (store : Option SignInSession)
    (resp : SRPFlowResponse) (tokens : AuthTokens)
    (hu : req.username ≠ "") (hp : req.password ≠ "")
    (hflow : ∀ m, flow req.username req.password m = Except.ok resp)
    (hauth : resp.authenticationResult = some tokens) :
    (signInWithSRP flow config req store).result =
      Except.ok ⟨true, ⟨ChallengeName.Done, none⟩⟩ ∧
    (signInWithSRP flow config req store).store = none := by
  constructor <;>
    simp [signInWithSRP, hu, hp, hflow, hauth, cleanActiveSignInState,
      setActiveSignInState]

/-- C2 witness: concrete token-issuing flow. -/
theorem signInWithSRP_tokens_done_witness :
    (signInWithSRP tokensFlow sampleConfig sampleRequest (some staleSession)).result =
      Except.ok ⟨true, ⟨ChallengeName.Done, none⟩⟩ ∧
    (signInWithSRP tokensFlow sampleConfig sampleRequest (some staleSession)).store = none :=
  signInWithSRP_tokens_done tokensFlow sampleConfig sampleRequest (some staleSession)
    tokensResponse ⟨"access-token"⟩ (by decide) (by decide) (fun _ => rfl) rfl

/-- C3: when the remote flow throws, the session store ends cleared, a
classifiable error name resolves to the classified result, and any other error
is re-raised unchanged. -/
theorem signInWithSRP_service_error_classification
    (flow : String → String → Option ClientMetadata → Except SignInError SRPFlowResponse)
    (config : AmplifyConfig) (req : SignInRequest) (store : Option SignInSession)
    (error : SignInError)
    (hu : req.username ≠ "") (hp : req.password ≠ "")
    (hflow : ∀ m, flow req.username req.password m = Except.error error) :
    (signInWithSRP flow config req store).store = none ∧
    (∀ result, getSignInResultFromError (SignInError.name error) = some result →
      (signInWithSRP flow config req store).result = Except.ok result) ∧
    (getSignInResultFromError (SignInError.name error) = none →
      (signInWithSRP flow config req store).result = Except.error error) := by
  refine ⟨?_, ?_, ?_⟩
  · simp [signInWithSRP, hu, hp, hflow, signInCatch, cleanActiveSignInState]
    split <;> rfl
  · intro result hclass
    simp [signInWithSRP, hu, hp, hflow, signInCatch, assertServiceError, hclass]
  · intro hclass
    simp [signInWithSRP, hu, hp, hflow, signInCatch, assertServiceError, hclass]

/-- C3 witness: concrete classifiable and unclassifiable service errors. -/
theorem signInWithSRP_service_error_classification_witness :
    (signInWithSRP (errorFlow "PasswordResetRequiredException") sampleConfig sampleRequest
        (some staleSession)).result =
      Except.ok ⟨false, ⟨ChallengeName.NewPasswordRequired, none⟩⟩ ∧
    (signInWithSRP (errorFlow "PasswordResetRequiredException") sampleConfig sampleRequest
        (some staleSession)).store = none :=
  have h := signInWithSRP_service_error_classification
    (errorFlow "PasswordResetRequiredException") sampleConfig sampleRequest
    (some staleSession) (SignInError.serviceError "PasswordResetRequiredException")
    (by decide) (by decide) (fun _ => rfl)
  ⟨h.2.1 ⟨false, ⟨ChallengeName.NewPasswordRequired, none⟩⟩ rfl, h.1⟩

/-- Auxiliary: the catch block always leaves the session store cleared. -/
theorem signInCatch_store_cleared (error : SignInError) (store : Option SignInSession) :
    (signInCatch error store).snd = none := by
  simp only [signInCatch, cleanActiveSignInState]
  split <;> rfl

/-- C4: when the remote flow succeeds without tokens but with a challenge the
dispatcher does not recognize, the call fails with the unrecognized-challenge
error and no active session remains stored afterwards. -/
theorem signInWithSRP_unrecognized_challenge
    (flow : String → String → Option ClientMetadata → Except SignInError SRPFlowResponse)
    (config : AmplifyConfig) (req : SignInRequest) (store : Option SignInSession)
    (resp : SRPFlowResponse)
    (hu : req.username ≠ "") (hp : req.password ≠ "")
    (hflow : ∀ m, flow req.username req.password m = Except.ok resp)
    (hauth : resp.authenticationResult = none)
    (hunrec : ∀ result,
      getSignInResult resp.challengeName resp.challengeParameters ≠ Except.ok result) :
    (signInWithSRP flow config req store).result =
      Except.error (SignInError.unrecognizedChallenge resp.challengeName) ∧
    (signInWithSRP flow config req store).store = none := by
  have herr := getSignInResult_unrecognized resp.challengeName resp.challengeParameters hunrec
  constructor <;>
    simp [signInWithSRP, hu, hp, hflow, hauth, herr, signInCatch, assertServiceError,
      cleanActiveSignInState, setActiveSignInState, SignInError.name,
      getSignInResultFromError]

/-- C4 witness: a service answering with the terminal Done marker as challenge
name. -/
theorem signInWithSRP_unrecognized_challenge_witness :
    (signInWithSRP doneChallengeFlow sampleConfig sampleRequest (some staleSession)).result =
      Except.error (SignInError.unrecognizedChallenge (some ChallengeName.Done)) ∧
    (signInWithSRP doneChallengeFlow sampleConfig sampleRequest (some staleSession)).store =
      none :=
  signInWithSRP_unrecognized_challenge doneChallengeFlow sampleConfig sampleRequest
    (some staleSession) doneChallengeResponse (by decide) (by decide) (fun _ => rfl) rfl
    (fun result h => by simp [getSignInResult, doneChallengeResponse] at h)

/-- C5: when the remote flow succeeds with a recognized named challenge and no
tokens, the store ends holding exactly the returned continuation token, the
caller username and the challenge name, and the call resolves with the
translated not-signed-in result for that same challenge. -/
theorem signInWithSRP_challenge_persists_session
    (flow : String → String → Option ClientMetadata → Except SignInError SRPFlowResponse)
    (config : AmplifyConfig) (req : SignInRequest) (store : Option SignInSession)
    (resp : SRPFlowResponse) (result : AuthSignInResult)
    (hu : req.username ≠ "") (hp : req.password ≠ "")
    (hflow : ∀ m, flow req.username req.password m = Except.ok resp)
    (hauth : resp.authenticationResult = none)
    (hres : getSignInResult resp.challengeName resp.challengeParameters = Except.ok result) :
    (signInWithSRP flow config req store).store =
      some ⟨resp.session, req.username, resp.challengeName⟩ ∧
    (signInWithSRP flow config req store).result = Except.ok result ∧
    result.isSignedIn = false ∧
    resp.challengeName = some result.nextStep.signInStep := by
  have hshape := getSignInResult_ok_shape resp.challengeName resp.challengeParameters
    result hres
  refine ⟨?_, ?_, hshape.1, hshape.2.1⟩ <;>
    simp [signInWithSRP, hu, hp, hflow, hauth, hres, setActiveSignInState]

/-- C5 witness: concrete MFA challenge flow. -/
theorem signInWithSRP_challenge_persists_session_witness :
    (signInWithSRP mfaFlow sampleConfig sampleRequest none).store =
      some ⟨some "continuation-1", "alice", some ChallengeName.MfaCode⟩ ∧
    (signInWithSRP mfaFlow sampleConfig sampleRequest none).result =
      Except.ok ⟨false, ⟨ChallengeName.MfaCode,
        some [("CODE_DELIVERY_DELIVERY_MEDIUM", "SMS"),
              ("CODE_DELIVERY_DESTINATION", "+15550100")]⟩⟩ :=
  have h := signInWithSRP_challenge_persists_session mfaFlow sampleConfig sampleRequest
    none mfaResponse
    ⟨false, ⟨ChallengeName.MfaCode,
      some [("CODE_DELIVERY_DELIVERY_MEDIUM", "SMS"),
            ("CODE_DELIVERY_DESTINATION", "+15550100")]⟩⟩
    (by decide) (by decide) (fun _ => rfl) rfl rfl
  ⟨h.1, h.2.1⟩

/-- C6: starting a second sign-in while a prior session is stored overwrites
that session entirely: the resulting store holds only the new session, and the
whole outcome is the same as if no prior session had existed. -/
theorem signInWithSRP_overwrites_prior_session
    (flow : String → String → Option ClientMetadata → Except SignInError SRPFlowResponse)
    (config : AmplifyConfig) (req : SignInRequest)
    (resp : SRPFlowResponse) (result : AuthSignInResult)
    (hu : req.username ≠ "") (hp : req.password ≠ "")
    (hflow : ∀ m, flow req.username req.password m = Except.ok resp)
    (hauth : resp.authenticationResult = none)
    (hres : getSignInResult resp.challengeName resp.challengeParameters = Except.ok result) :
    ∀ firstSession : SignInSession,
      (signInWithSRP flow config req (some firstSession)).store =
        some ⟨resp.session, req.username, resp.challengeName⟩ ∧
      signInWithSRP flow config req (some firstSession) =
        signInWithSRP flow config req none := by
  intro firstSession
  constructor <;>
    simp [signInWithSRP, hu, hp, hflow, hauth, hres, setActiveSignInState]

/-- C6 witness: a second sign-in discards the concrete stale session. -/
theorem signInWithSRP_overwrites_prior_session_witness :
    (signInWithSRP mfaFlow sampleConfig sampleRequest (some staleSession)).store =
      some ⟨some "continuation-1", "alice", some ChallengeName.MfaCode⟩ ∧
    signInWithSRP mfaFlow sampleConfig sampleRequest (some staleSession) =
      signInWithSRP mfaFlow sampleConfig sampleRequest none :=
  signInWithSRP_overwrites_prior_session mfaFlow sampleConfig sampleRequest mfaResponse
    ⟨false, ⟨ChallengeName.MfaCode,
      some [("CODE_DELIVERY_DELIVERY_MEDIUM", "SMS"),
            ("CODE_DELIVERY_DESTINATION", "+15550100")]⟩⟩
    (by decide) (by decide) (fun _ => rfl) rfl rfl staleSession

/-- C7: the session store never holds a session whose challenge is the
terminal Done marker: if the store satisfied that before a `signInWithSRP`
call, it satisfies it after the call, whatever the remote flow did. -/
theorem signInWithSRP_never_stores_done
    (flow : String → String → Option ClientMetadata → Except SignInError SRPFlowResponse)
    (config : AmplifyConfig) (req : SignInRequest) (store : Option SignInSession)
    (hinv : ∀ s, store = some s → s.challengeName ≠ some ChallengeName.Done) :
    ∀ s, (signInWithSRP flow config req store).store = some s →
      s.challengeName ≠ some ChallengeName.Done := by
  intro s hs
  by_cases hu : req.username = ""
  · simp [signInWithSRP, hu] at hs
    exact hinv s hs
  · by_cases hp : req.password = ""
    · simp [signInWithSRP, hu, hp] at hs
      exact hinv s hs
    · simp only [signInWithSRP, if_neg hu, if_neg hp] at hs
      split at hs
      · rw [signInCatch_store_cleared] at hs
        exact absurd hs (by simp)
      · rename_i resp _
        split at hs
        · simp [cleanActiveSignInState] at hs
        · split at hs
          · rename_i result hres
            simp [setActiveSignInState] at hs
            have hshape := getSignInResult_ok_shape resp.challengeName
              resp.challengeParameters result hres
            rw [← hs]
            simp only [hshape.2.1]
            intro hcontra
            exact hshape.2.2 (Option.some.inj hcontra)
          · rw [signInCatch_store_cleared] at hs
            exact absurd hs (by simp)

/-- C7 witness: the concrete session stored by the MFA flow is not Done, via
the preservation theorem applied from an empty store. -/
theorem signInWithSRP_never_stores_done_witness :
    (signInWithSRP mfaFlow sampleConfig sampleRequest none).store =
      some ⟨some "continuation-1", "alice", some ChallengeName.MfaCode⟩ ∧
    (⟨some "continuation-1", "alice", some ChallengeName.MfaCode⟩ :
        SignInSession).challengeName ≠ some ChallengeName.Done :=
  ⟨rfl,
    signInWithSRP_never_stores_done mfaFlow sampleConfig sampleRequest none
      (fun _ h => by simp at h)
      ⟨some "continuation-1", "alice", some ChallengeName.MfaCode⟩ rfl⟩

/-- C8: the client metadata handed to `handleUserSRPAuthFlow` is the per-call
`options.serviceOptions.clientMetadata` when present, and the globally
configured `Amplify.config.clientMetadata` otherwise; exactly one flow call is
made on any non-validation-failing input. -/
theorem signInWithSRP_clientMetadata_precedence
    (flow : String → String → Option ClientMetadata → Except SignInError SRPFlowResponse)
    (config : AmplifyConfig) (req : SignInRequest) (store : Option SignInSession)
    (hu : req.username ≠ "") (hp : req.password ≠ "") :
    (∀ m, Option.bind (Option.bind req.options SignInOptions.serviceOptions)
        CognitoSignInOptions.clientMetadata = some m →
      (signInWithSRP flow config req store).networkCalls =
        [⟨req.username, req.password, some m⟩]) ∧
    (Option.bind (Option.bind req.options SignInOptions.serviceOptions)
        CognitoSignInOptions.clientMetadata = none →
      (signInWithSRP flow config req store).networkCalls =
        [⟨req.username, req.password, config.clientMetadata⟩]) := by
  constructor
  · intro m hm
    simp only [signInWithSRP, hm, if_neg hu, if_neg hp]
    split
    · rfl
    · split
      · rfl
      · split <;> rfl
  · intro hm
    simp only [signInWithSRP, hm, if_neg hu, if_neg hp]
    split
    · rfl
    · split
      · rfl
      · split <;> rfl

/-- C8 witness: per-call metadata wins when present, the global configuration
is used when absent. -/
theorem signInWithSRP_clientMetadata_precedence_witness :
    (signInWithSRP mfaFlow sampleConfig sampleRequestWithMetadata none).networkCalls =
      [⟨"alice", "hunter2", some [("perCall", "local")]⟩] ∧
    (signInWithSRP mfaFlow sampleConfig sampleRequest none).networkCalls =
      [⟨"alice", "hunter2", some [("configured", "global")]⟩] :=
  ⟨(signInWithSRP_clientMetadata_precedence mfaFlow sampleConfig
      sampleRequestWithMetadata none (by decide) (by decide)).1
      [("perCall", "local")] rfl,
   (signInWithSRP_clientMetadata_precedence mfaFlow sampleConfig
      sampleRequest none (by decide) (by decide)).2 rfl⟩

end CognitoSignIn

namespace AdapterNextjs

/-- C9 counterexample: with the environment variable present but holding the
empty string (which is not a valid origin), the factory throws the
missing-variable error, not the distinct invalid-origin error the claim
requires for every present-but-invalid value. -/
theorem createAuthRouteHandlersFactory_empty_origin_counterexample :
    (some "" : Option String) ≠ none ∧
    isValidOrigin "" = false ∧
    createAuthRouteHandlersFactory true true (some "") =
      Except.error (AuthRouteHandlersError.serverContextError missingOriginError) ∧
    missingOriginError ≠ invalidOriginError := by
  refine ⟨by simp, rfl, rfl, by decide⟩

/-- C9 amended: the factory fails at construction time with the
missing-variable error whenever `AMPLIFY_APP_ORIGIN` is absent or empty, and
with the distinct invalid-origin error whenever it is present, nonempty and
not a valid origin string. -/
theorem createAuthRouteHandlersFactory_origin_validation
    (hasTokenProviderConfig hasOAuthConfig : Bool) (env : Option String) :
    ((env = none ∨ env = some "") →
      createAuthRouteHandlersFactory hasTokenProviderConfig hasOAuthConfig env =
        Except.error (AuthRouteHandlersError.serverContextError missingOriginError)) ∧
    (∀ origin, env = some origin → origin ≠ "" → isValidOrigin origin = false →
      createAuthRouteHandlersFactory hasTokenProviderConfig hasOAuthConfig env =
        Except.error (AuthRouteHandlersError.serverContextError invalidOriginError)) ∧
    missingOriginError ≠ invalidOriginError := by
  refine ⟨?_, ?_, by decide⟩
  · rintro (rfl | rfl) <;> rfl
  · rintro origin rfl hne hv
    simp [createAuthRouteHandlersFactory, hne, hv]

/-- C9 amended witness: absent variable, and a present nonempty invalid
origin. -/
theorem createAuthRouteHandlersFactory_origin_validation_witness :
    createAuthRouteHandlersFactory true true none =
      Except.error (AuthRouteHandlersError.serverContextError missingOriginError) ∧
    createAuthRouteHandlersFactory true true (some "ftp://example.com") =
      Except.error (AuthRouteHandlersError.serverContextError invalidOriginError) :=
  ⟨(createAuthRouteHandlersFactory_origin_validation true true none).1 (Or.inl rfl),
   (createAuthRouteHandlersFactory_origin_validation true true
      (some "ftp://example.com")).2.1 "ftp://example.com" rfl (by decide) (by rfl)⟩

end AdapterNextjs

namespace InitSingleton

/-- C10 counterexample: with an Auth config present, no `libraryOptions.Auth`
passed, but Auth libraryOptions previously configured (so the claim's three
conditions do not all hold), passing `libraryOptions` with `ssr` defined makes
the forwarded call carry the default Cognito credentials provider in place of
the previously configured custom one, so the configuration is not forwarded
without adding those providers. -/
theorem DefaultAmplifyConfigure_ssr_reconfig_counterexample :
    samplePrevAuthOptions.Auth.isSome = true ∧
    (DefaultAmplifyConfigure samplePrevAuthOptions sampleAuthResourcesConfig
        (some ⟨none, some false⟩)).libraryOptions =
      some ⟨some ⟨TokenProvider.otherTokenProvider "customToken",
              CredentialsProvider.cognitoCredentialsProvider⟩, some false⟩ ∧
    CredentialsProvider.cognitoCredentialsProvider ≠
      CredentialsProvider.otherCredentialsProvider "customCredentials" :=
  ⟨rfl, rfl, by decide⟩

/-- C10 amended: the default Cognito token and credentials providers are
installed as a pair exactly when the resolved config has an Auth section, no
`libraryOptions.Auth` is passed and no Auth libraryOptions were previously
configured; without an Auth section or with caller Auth options the call is
forwarded untouched; and when Auth was previously configured the previous
Auth options are forwarded, except that a caller-supplied `ssr` flag replaces
their credentials provider with the resolved default one. -/
theorem DefaultAmplifyConfigure_provider_installation
    (prev : LibraryOptions) (cfg : ResourcesConfig) (options : Option LibraryOptions) :
    (cfg.Auth.isSome = true → Option.bind options LibraryOptions.Auth = none →
      prev.Auth = none →
      DefaultAmplifyConfigure prev cfg options =
        ⟨cfg, some ⟨some ⟨TokenProvider.cognitoUserPoolsTokenProvider,
          resolvedCredentialsProviderOf options⟩,
          Option.bind options LibraryOptions.ssr⟩⟩) ∧
    (cfg.Auth = none →
      DefaultAmplifyConfigure prev cfg options = ⟨cfg, options⟩) ∧
    (Option.bind options LibraryOptions.Auth ≠ none →
      DefaultAmplifyConfigure prev cfg options = ⟨cfg, options⟩) ∧
    (∀ prevAuth, prev.Auth = some prevAuth →
      Option.bind options LibraryOptions.Auth = none → cfg.Auth.isSome = true →
      DefaultAmplifyConfigure prev cfg options =
        ⟨cfg, match options with
          | none => none
          | some lo => some ⟨some (if lo.ssr.isSome then
                { prevAuth with
                    credentialsProvider := resolvedCredentialsProviderOf options }
              else prevAuth), lo.ssr⟩⟩) := by
  refine ⟨?_, ?_, ?_, ?_⟩
  · intro hc ho hp
    rcases Option.isSome_iff_exists.mp hc with ⟨a, ha⟩
    simp [DefaultAmplifyConfigure, parseAmplifyConfig, ha, ho, hp]
  · intro hc
    simp [DefaultAmplifyConfigure, parseAmplifyConfig, hc]
  · intro ho
    rcases Option.ne_none_iff_exists.mp ho with ⟨a, ha⟩
    cases hcfg : cfg.Auth with
    | none => simp [DefaultAmplifyConfigure, parseAmplifyConfig, hcfg]
    | some c =>
      simp [DefaultAmplifyConfigure, parseAmplifyConfig, hcfg, ← ha]
  · intro prevAuth hp ho hc
    rcases Option.isSome_iff_exists.mp hc with ⟨a, ha⟩
    cases options with
    | none => simp [DefaultAmplifyConfigure, parseAmplifyConfig, ha, hp]
    | some lo =>
      simp only [Option.bind] at ho
      simp [DefaultAmplifyConfigure, parseAmplifyConfig, ha, hp, ho]

/-- C10 amended witness: fresh configuration installs the default pair, and a
config without an Auth section is forwarded untouched. -/
theorem DefaultAmplifyConfigure_provider_installation_witness :
    DefaultAmplifyConfigure ⟨none, none⟩ sampleAuthResourcesConfig none =
      ⟨sampleAuthResourcesConfig,
        some ⟨some ⟨TokenProvider.cognitoUserPoolsTokenProvider,
          CredentialsProvider.cognitoCredentialsProvider⟩, none⟩⟩ ∧
    DefaultAmplifyConfigure samplePrevAuthOptions ⟨none⟩ (some ⟨none, some true⟩) =
      ⟨⟨none⟩, some ⟨none, some true⟩⟩ :=
  ⟨(DefaultAmplifyConfigure_provider_installation ⟨none, none⟩
      sampleAuthResourcesConfig none).1 rfl rfl rfl,
   (DefaultAmplifyConfigure_provider_installation samplePrevAuthOptions ⟨none⟩
      (some ⟨none, some true⟩)).2.1 rfl⟩

end InitSingleton
